import Mathlib

/-!
Verification of the Jira → GitHub automation workflow shipped in
`examples/codex/jira-github.ipynb`.  The notebook embeds a GitHub Actions
workflow (`Codex Automated PR`) triggered by `workflow_dispatch` with inputs
`issue_key`, `issue_summary`, `issue_description`.  We give a shallow
embedding of the workflow's steps — the `vars` export step, the two Jira
`curl` calls, the `codex` implement-and-commit step, and the
`peter-evans/create-pull-request` step — and prove or refute the specified
properties about it.
-/

/-- A `workflow_dispatch` trigger event: the three declared workflow inputs
(`issue_key`, `issue_summary`, `issue_description`). -/
structure Trigger where
  issue_key : String
  issue_summary : String
  issue_description : String
deriving DecidableEq

/-- The `tr` stage of the `vars` step: every newline character of the input
becomes a space. -/
def trNewlines (s : String) : String :=
  String.mk (s.data.map fun c => if c = '\n' then ' ' else c)

/-- The `sed` substitution from the `vars` step, `s/DQUOTE/SQUOTE/g`: every
double-quote character becomes a single-quote (apostrophe, code point 39). -/
def sedQuotes (s : String) : String :=
  String.mk (s.data.map fun c => if c = '"' then Char.ofNat 39 else c)

/-- The `DESC_CLEANED` value of the `vars` step: the issue description
piped through `tr` then `sed`. -/
def descCleaned (s : String) : String :=
  sedQuotes (trNewlines s)

/-- The branch name exported by the `vars` step: `BRANCH=codex/<issue_key>`. -/
def branchOf (t : Trigger) : String :=
  "codex/" ++ t.issue_key

/-- The text appended to `$GITHUB_ENV` by the five `echo` lines of the
`vars` step, in source order (each `echo` terminates its output with a
newline). -/
def varsEnvWritten (t : Trigger) : String :=
  "ISSUE_KEY=" ++ t.issue_key ++ "\n" ++
  "TITLE=" ++ t.issue_summary ++ "\n" ++
  "RAW_DESC=" ++ t.issue_description ++ "\n" ++
  "DESC=" ++ descCleaned t.issue_description ++ "\n" ++
  "BRANCH=" ++ branchOf t ++ "\n"

/-- Split a character list at newline characters (the resulting segments do
not contain the separators). -/
def splitLinesList (cs : List Char) : List (List Char) :=
  cs.foldr
    (fun c r =>
      match r with
      | [] => [[c]]
      | line :: rest =>
        if c = '\n' then [] :: line :: rest else (c :: line) :: rest)
    [[]]

/-- The newline-separated segments of a string. -/
def splitLines (s : String) : List String :=
  (splitLinesList s.data).map String.mk

/-- The records of a newline-terminated file, as the Actions runner parses
`$GITHUB_ENV`: every newline ends one record, so the segment after the final
newline (empty for a well-terminated file) is not a record. -/
def fileRecords (s : String) : List String :=
  (splitLines s).dropLast

/-- The entries the `vars` step leaves in the `$GITHUB_ENV` file. -/
def varsEnvEntries (t : Trigger) : List String :=
  fileRecords (varsEnvWritten t)

/-- An HTTP response that reached the workflow: status code and body. -/
structure HttpResponse where
  status : Nat
  body : String
deriving DecidableEq

/-- Outcome of one `curl` invocation: either some HTTP response arrived
(whatever its status), or the transfer failed at transport level with a
nonzero curl exit code. -/
inductive CurlResult where
  | response (r : HttpResponse)
  | transportError (code : Nat)
deriving DecidableEq

/-- Exit status of the `curl -sS` invocations in the workflow: without
`--fail`, curl exits 0 whenever a response arrives, regardless of its HTTP
status; only a transport-level error yields a nonzero exit. -/
def curlSucceeds : CurlResult → Bool
  | .response _ => true
  | .transportError _ => false

/-- Whether an HTTP status lies in the 2xx success range. -/
def is2xx (r : HttpResponse) : Bool :=
  decide (200 ≤ r.status) && decide (r.status < 300)

/-- Whether Jira actually performs the requested status transition: only
when the request arrives and is answered with a 2xx status. -/
def transitionApplied : CurlResult → Bool
  | .response r => is2xx r
  | .transportError _ => false

/-- Outcome of the `codex` implement-and-commit step body (`set -e`):
`changes` means codex exited 0 and `git commit` found staged changes;
`noChanges` means codex exited 0 but nothing was staged, so `git commit`
exits nonzero; `error` means codex itself exited nonzero. -/
inductive AgentResult where
  | changes
  | noChanges
  | error
deriving DecidableEq

/-- The behaviour of the external systems during one workflow run: the
results of the four `curl` calls, the agent step outcome, and the result of
`peter-evans/create-pull-request` (`some url` on success). -/
structure World where
  inProgressCall : CurlResult
  agentResult : AgentResult
  prResult : Option String
  inReviewCall : CurlResult
  commentCall : CurlResult
deriving DecidableEq

/-- Jira ticket status as far as the workflow's transitions move it. -/
inductive TicketStatus where
  | todo
  | inProgress
  | inReview
deriving DecidableEq

/-- Which step's failure terminated the run (the spec's failure-reason
taxonomy, mapped onto the identity of the failing workflow step). -/
inductive FailureReason where
  | ticketTransitionFailed
  | agentExecutionFailed
  | prCreationFailed
  | commentFailed
deriving DecidableEq

/-- The commit message of the codex step:
`git commit -m "feat($ISSUE_KEY): $TITLE"`. -/
def commitMessage (t : Trigger) : String :=
  "feat(" ++ t.issue_key ++ "): " ++ t.issue_summary

/-- Inputs handed to `peter-evans/create-pull-request`. -/
structure PrRequest where
  base : String
  branch : String
  title : String
  body : String
deriving DecidableEq

/-- The `with:` block of the `cpr` step: base `main`, branch `$BRANCH`,
title `"$TITLE ($ISSUE_KEY)"`, and the literal block-scalar body embedding
`$ISSUE_KEY` and `$DESC`. -/
def cprRequest (t : Trigger) : PrRequest :=
  { base := "main"
  , branch := branchOf t
  , title := t.issue_summary ++ " (" ++ t.issue_key ++ ")"
  , body := "Auto-generated by Codex for JIRA **" ++ t.issue_key ++ "**.\n---\n"
      ++ descCleaned t.issue_description ++ "\n" }

/-- Everything observable about one finished run of the `codex_auto_pr`
job: whether the codex step executed, the commits made, the
create-pull-request invocations, the PR URL recorded as the `cpr` step
output, the resulting Jira ticket status, and the job conclusion. -/
structure RunRecord where
  ranAgent : Bool
  commits : List String
  prRequests : List PrRequest
  prUrl : Option String
  ticket : TicketStatus
  failed : Bool
  failureReason : Option FailureReason
deriving DecidableEq

/-- Sequential execution of the `codex_auto_pr` job: steps run in order and
a step failure (nonzero exit under the default `if: success()` guard) skips
all later steps and fails the job.  The Jira steps fail only when `curl`
exits nonzero (transport error), since `--fail` is not passed; the codex
step (`set -e`) fails when codex errors or `git commit` has nothing to
commit; the final step runs its two `curl` calls in sequence. -/
def runWorkflow (t : Trigger) (w : World) : RunRecord :=
  let ticket1 := if transitionApplied w.inProgressCall then TicketStatus.inProgress
    else TicketStatus.todo
  if curlSucceeds w.inProgressCall then
    match w.agentResult with
    | .error =>
      { ranAgent := true, commits := [], prRequests := [], prUrl := none,
        ticket := ticket1, failed := true,
        failureReason := some .agentExecutionFailed }
    | .noChanges =>
      { ranAgent := true, commits := [], prRequests := [], prUrl := none,
        ticket := ticket1, failed := true,
        failureReason := some .agentExecutionFailed }
    | .changes =>
      match w.prResult with
      | none =>
        { ranAgent := true, commits := [commitMessage t],
          prRequests := [cprRequest t], prUrl := none,
          ticket := ticket1, failed := true,
          failureReason := some .prCreationFailed }
      | some url =>
        let ticket2 := if transitionApplied w.inReviewCall then TicketStatus.inReview
          else ticket1
        if curlSucceeds w.inReviewCall then
          if curlSucceeds w.commentCall then
            { ranAgent := true, commits := [commitMessage t],
              prRequests := [cprRequest t], prUrl := some url,
              ticket := ticket2, failed := false, failureReason := none }
          else
            { ranAgent := true, commits := [commitMessage t],
              prRequests := [cprRequest t], prUrl := some url,
              ticket := ticket2, failed := true,
              failureReason := some .commentFailed }
        else
          { ranAgent := true, commits := [commitMessage t],
            prRequests := [cprRequest t], prUrl := some url,
            ticket := ticket2, failed := true,
            failureReason := some .ticketTransitionFailed }
  else
    { ranAgent := false, commits := [], prRequests := [], prUrl := none,
      ticket := ticket1, failed := true,
      failureReason := some .ticketTransitionFailed }

/-- The `--data` literal of the In Progress transition call:
`{"transition":{"id":"21"}}`. -/
def inProgressTransitionBody : String :=
  "\x7b\"transition\":\x7b\"id\":\"21\"\x7d\x7d"

/-- The `--data` literal of the In Review transition call:
`{"transition":{"id":"31"}}`. -/
def inReviewTransitionBody : String :=
  "\x7b\"transition\":\x7b\"id\":\"31\"\x7d\x7d"

/-- A deployment configuration carrying tracker-specific transition
identifiers, as the specification's configuration surface describes. -/
structure TrackerConfig where
  inProgressTransitionId : String
  inReviewTransitionId : String
deriving DecidableEq

/-- The body the workflow actually sends for the In Progress transition
under a given configuration: the workflow file declares no input, secret or
variable for transition identifiers, so the body is the hard-coded literal,
for every configuration. -/
def inProgressBodySent (_cfg : TrackerConfig) : String :=
  inProgressTransitionBody

/-- The body the workflow actually sends for the In Review transition under
a given configuration: likewise the hard-coded literal. -/
def inReviewBodySent (_cfg : TrackerConfig) : String :=
  inReviewTransitionBody

/-- Containment of `needle` in `hay` as contiguous text. -/
def StrContains (hay needle : String) : Prop :=
  needle.data <:+: hay.data

instance (hay needle : String) : Decidable (StrContains hay needle) :=
  List.decidableInfix needle.data hay.data

/-- What can happen to an incoming `workflow_dispatch` request. -/
inductive DispatchOutcome where
  | started
  | queued
  | rejectedConcurrent
deriving DecidableEq

/-- The workflow file declares no `concurrency:` stanza. -/
def codexAutoPrHasConcurrencyGroup : Bool := false

/-- Modelled GitHub Actions dispatch semantics: a workflow that declares a
`concurrency` group queues a dispatch whose group already has an active
run; a workflow without one starts every dispatch immediately, however many
runs for the same issue key are already active.  No dispatch is ever
rejected with an error. -/
def dispatch (hasConcurrencyGroup : Bool) (activeRunsForSameKey : Nat) :
    DispatchOutcome :=
  if hasConcurrencyGroup then
    if 0 < activeRunsForSameKey then .queued else .started
  else .started

/-- Scenario: every external call succeeds. -/
def worldAllGood : World :=
  { inProgressCall := .response ⟨204, ""⟩
  , agentResult := .changes
  , prResult := some "https://github.com/acme/repo/pull/1"
  , inReviewCall := .response ⟨204, ""⟩
  , commentCall := .response ⟨201, ""⟩ }

/-- Scenario: Jira answers the In Progress transition with HTTP 400 (curl
still exits 0 because `--fail` is absent). -/
def worldHttp400 : World :=
  { worldAllGood with inProgressCall := .response ⟨400, "Bad Request"⟩ }

/-- Scenario: the In Progress transition call fails at transport level
(curl exit code 7, connection refused). -/
def worldTransportFail : World :=
  { worldAllGood with inProgressCall := .transportError 7 }

/-- Scenario: codex exits with an internal error. -/
def worldAgentError : World :=
  { worldAllGood with agentResult := .error }

/-- Scenario: the PR is created but the In Review transition call fails at
transport level. -/
def worldInReviewFail : World :=
  { worldAllGood with inReviewCall := .transportError 7 }

/-- A demonstration trigger. -/
def trigDemo : Trigger :=
  { issue_key := "PROJ-123", issue_summary := "Fix null check"
  , issue_description := "needs a guard" }

/-- To contain `b` it suffices to be the concatenation `a ++ b ++ c`. -/
theorem strContains_intro (hay a b c : String)
    (h : a.data ++ b.data ++ c.data = hay.data) : StrContains hay b :=
  ⟨a.data, c.data, h⟩

/-- No double quote survives the `sed` substitution. -/
theorem quote_not_mem_sedQuotes (s : String) : '"' ∉ (sedQuotes s).data := by
  intro h
  have h' : '"' ∈ s.data.map (fun c => if c = '"' then Char.ofNat 39 else c) := h
  obtain ⟨x, _, hfx⟩ := List.mem_map.mp h'
  by_cases hx : x = '"'
  · rw [if_pos hx] at hfx
    exact absurd hfx (by decide)
  · rw [if_neg hx] at hfx
    exact hx hfx

/-- The `tr` stage leaves no newline in its output. -/
theorem nl_not_mem_trNewlines (s : String) : '\n' ∉ (trNewlines s).data := by
  intro h
  have h' : '\n' ∈ s.data.map (fun c => if c = '\n' then ' ' else c) := h
  obtain ⟨x, _, hfx⟩ := List.mem_map.mp h'
  by_cases hx : x = '\n'
  · rw [if_pos hx] at hfx
    exact absurd hfx (by decide)
  · rw [if_neg hx] at hfx
    exact hx hfx

/-- The `sed` substitution introduces no newline. -/
theorem nl_not_mem_sedQuotes (s : String) (hs : '\n' ∉ s.data) :
    '\n' ∉ (sedQuotes s).data := by
  intro h
  have h' : '\n' ∈ s.data.map (fun c => if c = '"' then Char.ofNat 39 else c) := h
  obtain ⟨x, hxs, hfx⟩ := List.mem_map.mp h'
  by_cases hx : x = '"'
  · rw [if_pos hx] at hfx
    exact absurd hfx (by decide)
  · rw [if_neg hx] at hfx
    exact hs (hfx ▸ hxs)

/-- C1 counterexample: with one run already active for the same issue key, a
second `workflow_dispatch` for `codex_auto_pr` (which declares no
concurrency group) is started, not rejected with `ConcurrentRunError`. -/
theorem c1_second_trigger_not_rejected :
    dispatch codexAutoPrHasConcurrencyGroup 1 = DispatchOutcome.started ∧
    dispatch codexAutoPrHasConcurrencyGroup 1 ≠ DispatchOutcome.rejectedConcurrent := by
  decide

/-- C1 (amended): the workflow declares no concurrency control, so a second
trigger for a ticket with any number of active runs is always started
concurrently and never rejected. -/
theorem c1_dispatch_always_starts (activeRuns : Nat) :
    dispatch codexAutoPrHasConcurrencyGroup activeRuns = DispatchOutcome.started := by
  rfl

/-- C2 counterexample: Jira rejects the In Progress transition with HTTP
400 — the transition fails and is not applied — yet the workflow proceeds
and the codex agent step still runs, and the run is not marked failed with
`TicketTransitionFailed`. -/
theorem c2_http_failure_still_runs_agent :
    transitionApplied worldHttp400.inProgressCall = false ∧
    (runWorkflow trigDemo worldHttp400).ranAgent = true ∧
    (runWorkflow trigDemo worldHttp400).failureReason ≠
      some FailureReason.ticketTransitionFailed := by
  decide

/-- C2 (amended): only a transport-level failure of the In Progress `curl`
call (nonzero curl exit) fails the run before the agent: then the run is
failed with the transition-step reason and the codex step never executes.
An HTTP-error response does not stop the run, since `--fail` is absent. -/
theorem c2_transport_failure_fails_before_agent (t : Trigger) (w : World)
    (h : curlSucceeds w.inProgressCall = false) :
    (runWorkflow t w).failed = true ∧
    (runWorkflow t w).failureReason = some FailureReason.ticketTransitionFailed ∧
    (runWorkflow t w).ranAgent = false := by
  simp [runWorkflow, h]

/-- Witness for the amended C2 at a concrete transport failure. -/
theorem c2_transport_failure_witness :
    curlSucceeds worldTransportFail.inProgressCall = false ∧
    ((runWorkflow trigDemo worldTransportFail).failed = true ∧
     (runWorkflow trigDemo worldTransportFail).failureReason =
       some FailureReason.ticketTransitionFailed ∧
     (runWorkflow trigDemo worldTransportFail).ranAgent = false) :=
  ⟨by decide, c2_transport_failure_fails_before_agent trigDemo worldTransportFail (by decide)⟩

/-- C3 counterexample: a description with a double quote and a newline is
not content-preserved by the `vars` sanitization — the cleaned text differs
from the original (the quote became an apostrophe, the newline a space). -/
theorem c3_sanitization_not_content_preserving :
    '"' ∈ ("a\"b\nc").data ∧ '\n' ∈ ("a\"b\nc").data ∧
    descCleaned "a\"b\nc" ≠ "a\"b\nc" := by
  decide

/-- C3 (amended): for every description containing a double quote and a
newline, the sanitized output contains no double quote and no literal
newline (but the transformation is lossy, so the visible text is not
preserved). -/
theorem c3_no_quote_no_newline (d : String)
    (_h1 : '"' ∈ d.data) (_h2 : '\n' ∈ d.data) :
    '"' ∉ (descCleaned d).data ∧ '\n' ∉ (descCleaned d).data :=
  ⟨quote_not_mem_sedQuotes (trNewlines d),
   nl_not_mem_sedQuotes (trNewlines d) (nl_not_mem_trNewlines d)⟩

/-- Witness for the amended C3 at a concrete description. -/
theorem c3_no_quote_no_newline_witness :
    ('"' ∈ ("a\"b\nc").data ∧ '\n' ∈ ("a\"b\nc").data) ∧
    ('"' ∉ (descCleaned "a\"b\nc").data ∧ '\n' ∉ (descCleaned "a\"b\nc").data) :=
  ⟨⟨by decide, by decide⟩, c3_no_quote_no_newline "a\"b\nc" (by decide) (by decide)⟩

/-- C4: when the In Progress transition went through and the agent step
fails (codex error or nothing to commit), the run terminates failed with
the agent-step reason, `create-pull-request` is never invoked, no PR URL is
recorded, and the ticket stays In Progress. -/
theorem c4_agent_failure_terminal (t : Trigger) (w : World)
    (h1 : curlSucceeds w.inProgressCall = true)
    (h2 : transitionApplied w.inProgressCall = true)
    (h3 : w.agentResult ≠ AgentResult.changes) :
    (runWorkflow t w).failed = true ∧
    (runWorkflow t w).failureReason = some FailureReason.agentExecutionFailed ∧
    (runWorkflow t w).prRequests = [] ∧
    (runWorkflow t w).prUrl = none ∧
    (runWorkflow t w).ticket = TicketStatus.inProgress := by
  cases hA : w.agentResult with
  | changes => exact absurd hA h3
  | noChanges => simp [runWorkflow, h1, h2, hA]
  | error => simp [runWorkflow, h1, h2, hA]

/-- Witness for C4 at a concrete agent error. -/
theorem c4_agent_failure_witness :
    curlSucceeds worldAgentError.inProgressCall = true ∧
    transitionApplied worldAgentError.inProgressCall = true ∧
    worldAgentError.agentResult ≠ AgentResult.changes ∧
    ((runWorkflow trigDemo worldAgentError).failed = true ∧
     (runWorkflow trigDemo worldAgentError).failureReason =
       some FailureReason.agentExecutionFailed ∧
     (runWorkflow trigDemo worldAgentError).prRequests = [] ∧
     (runWorkflow trigDemo worldAgentError).prUrl = none ∧
     (runWorkflow trigDemo worldAgentError).ticket = TicketStatus.inProgress) :=
  ⟨by decide, by decide, by decide,
   c4_agent_failure_terminal trigDemo worldAgentError (by decide) (by decide) (by decide)⟩

/-- C5: if the PR was created but the In Review transition does not go
through, the terminal record still carries the PR URL from the `cpr` step
output, and the ticket indeed never reached In Review. -/
theorem c5_pr_url_surfaced (t : Trigger) (w : World) (url : String)
    (h1 : curlSucceeds w.inProgressCall = true)
    (h2 : w.agentResult = AgentResult.changes)
    (h3 : w.prResult = some url)
    (h4 : transitionApplied w.inReviewCall = false) :
    (runWorkflow t w).prUrl = some url ∧
    (runWorkflow t w).ticket ≠ TicketStatus.inReview := by
  cases hR : curlSucceeds w.inReviewCall <;>
    cases hC : curlSucceeds w.commentCall <;>
      cases hP : transitionApplied w.inProgressCall <;>
        simp [runWorkflow, h1, h2, h3, h4, hR, hC, hP]

/-- Witness for C5 at a concrete In Review transport failure. -/
theorem c5_pr_url_surfaced_witness :
    curlSucceeds worldInReviewFail.inProgressCall = true ∧
    worldInReviewFail.agentResult = AgentResult.changes ∧
    worldInReviewFail.prResult = some "https://github.com/acme/repo/pull/1" ∧
    transitionApplied worldInReviewFail.inReviewCall = false ∧
    ((runWorkflow trigDemo worldInReviewFail).prUrl =
       some "https://github.com/acme/repo/pull/1" ∧
     (runWorkflow trigDemo worldInReviewFail).ticket ≠ TicketStatus.inReview) :=
  ⟨by decide, by decide, by decide, by decide,
   c5_pr_url_surfaced trigDemo worldInReviewFail "https://github.com/acme/repo/pull/1"
     (by decide) (by decide) (by decide) (by decide)⟩

/-- C6 counterexample: an HTTP 400 response is not a hard failure — the
`curl -sS` invocation (no `--fail`) exits 0, so the step succeeds even
though the status is outside the 2xx range. -/
theorem c6_non2xx_not_hard_failure :
    is2xx ⟨400, "Bad Request"⟩ = false ∧
    curlSucceeds (CurlResult.response ⟨400, "Bad Request"⟩) = true := by
  decide

/-- C6 (amended): the client calls treat every delivered HTTP response —
2xx or not — as success (exit 0); only a transport-level error is surfaced
as a step failure. -/
theorem c6_only_transport_errors_fail (r : HttpResponse) :
    curlSucceeds (CurlResult.response r) = true ∧
    ∀ code : Nat, curlSucceeds (CurlResult.transportError code) = false :=
  ⟨rfl, fun _ => rfl⟩

/-- C7: the branch name is `codex/` followed by the issue key and depends
on nothing else, so two triggers with the same issue key yield the same
branch regardless of title or description. -/
theorem c7_branch_deterministic (t1 t2 : Trigger)
    (h : t1.issue_key = t2.issue_key) :
    branchOf t1 = "codex/" ++ t1.issue_key ∧ branchOf t1 = branchOf t2 := by
  exact ⟨rfl, by simp [branchOf, h]⟩

/-- Witness for C7: two triggers sharing an issue key but nothing else. -/
theorem c7_branch_deterministic_witness :
    (Trigger.mk "PROJ-123" "A" "d1").issue_key =
      (Trigger.mk "PROJ-123" "B" "d2").issue_key ∧
    (branchOf ⟨"PROJ-123", "A", "d1"⟩ = "codex/" ++
       (Trigger.mk "PROJ-123" "A" "d1").issue_key ∧
     branchOf ⟨"PROJ-123", "A", "d1"⟩ = branchOf ⟨"PROJ-123", "B", "d2"⟩) :=
  ⟨rfl, c7_branch_deterministic ⟨"PROJ-123", "A", "d1"⟩ ⟨"PROJ-123", "B", "d2"⟩ rfl⟩

/-- C8 counterexample: configure the In Progress transition id as "99" —
the body the workflow sends is still the hard-coded literal: it contains
"21" and does not contain the configured "99". -/
theorem c8_configured_id_ignored :
    inProgressBodySent ⟨"99", "98"⟩ = inProgressTransitionBody ∧
    StrContains (inProgressBodySent ⟨"99", "98"⟩) "21" ∧
    ¬ StrContains (inProgressBodySent ⟨"99", "98"⟩) "99" := by
  refine ⟨rfl, by decide, by decide⟩

/-- C8 (amended): the transition identifiers are hard-coded literals — for
every configuration both transition calls send the constant bodies, which
carry the literal ids "21" (In Progress) and "31" (In Review). -/
theorem c8_transition_ids_hard_coded (cfg : TrackerConfig) :
    inProgressBodySent cfg = inProgressTransitionBody ∧
    inReviewBodySent cfg = inReviewTransitionBody ∧
    StrContains inProgressTransitionBody "21" ∧
    StrContains inReviewTransitionBody "31" :=
  ⟨rfl, rfl, by decide, by decide⟩

/-- C9: on agent success the run commits once with the standardized message
embedding the issue key and title, and invokes `create-pull-request`
exactly once, against base `main`, from the deterministically derived head
branch, with a title embedding the issue key and a body embedding the
sanitized description. -/
theorem c9_success_commit_and_pr (t : Trigger) (w : World) (url : String)
    (h1 : curlSucceeds w.inProgressCall = true)
    (h2 : w.agentResult = AgentResult.changes)
    (h3 : w.prResult = some url) :
    (runWorkflow t w).commits = [commitMessage t] ∧
    StrContains (commitMessage t) t.issue_key ∧
    StrContains (commitMessage t) t.issue_summary ∧
    (runWorkflow t w).prRequests = [cprRequest t] ∧
    (cprRequest t).base = "main" ∧
    (cprRequest t).branch = "codex/" ++ t.issue_key ∧
    StrContains (cprRequest t).title t.issue_key ∧
    StrContains (cprRequest t).body (descCleaned t.issue_description) := by
  have hrec : (runWorkflow t w).commits = [commitMessage t] ∧
      (runWorkflow t w).prRequests = [cprRequest t] := by
    cases hR : curlSucceeds w.inReviewCall <;>
      cases hC : curlSucceeds w.commentCall <;>
        simp [runWorkflow, h1, h2, h3, hR, hC]
  refine ⟨hrec.1, ?_, ?_, hrec.2, rfl, rfl, ?_, ?_⟩
  · exact strContains_intro _ "feat(" _ ("): " ++ t.issue_summary)
      (by simp [commitMessage, String.data_append])
  · exact strContains_intro _ ("feat(" ++ t.issue_key ++ "): ") _ ""
      (by simp [commitMessage, String.data_append])
  · exact strContains_intro _ (t.issue_summary ++ " (") _ ")"
      (by simp [cprRequest, String.data_append])
  · exact strContains_intro _ ("Auto-generated by Codex for JIRA **" ++ t.issue_key ++ "**.\n---\n")
      _ "\n" (by simp [cprRequest, String.data_append])

/-- Witness for C9 at the all-good scenario. -/
theorem c9_success_commit_and_pr_witness :
    curlSucceeds worldAllGood.inProgressCall = true ∧
    worldAllGood.agentResult = AgentResult.changes ∧
    worldAllGood.prResult = some "https://github.com/acme/repo/pull/1" ∧
    ((runWorkflow trigDemo worldAllGood).commits = [commitMessage trigDemo] ∧
     StrContains (commitMessage trigDemo) trigDemo.issue_key ∧
     StrContains (commitMessage trigDemo) trigDemo.issue_summary ∧
     (runWorkflow trigDemo worldAllGood).prRequests = [cprRequest trigDemo] ∧
     (cprRequest trigDemo).base = "main" ∧
     (cprRequest trigDemo).branch = "codex/" ++ trigDemo.issue_key ∧
     StrContains (cprRequest trigDemo).title trigDemo.issue_key ∧
     StrContains (cprRequest trigDemo).body (descCleaned trigDemo.issue_description)) :=
  ⟨by decide, by decide, by decide,
   c9_success_commit_and_pr trigDemo worldAllGood "https://github.com/acme/repo/pull/1"
     (by decide) (by decide) (by decide)⟩

/-- C10: for a description containing a newline, the `vars` step writes the
raw description into `$GITHUB_ENV` before cleaning, so the file holds more
than the five intended records — the description's second line becomes a
stray record of its own. -/
theorem c10_raw_desc_splits_env_file :
    '\n' ∈ (Trigger.mk "PROJ-1" "T" "line1\nline2").issue_description.data ∧
    varsEnvEntries ⟨"PROJ-1", "T", "line1\nline2"⟩ =
      ["ISSUE_KEY=PROJ-1", "TITLE=T", "RAW_DESC=line1", "line2",
       "DESC=line1 line2", "BRANCH=codex/PROJ-1"] ∧
    5 < (varsEnvEntries ⟨"PROJ-1", "T", "line1\nline2"⟩).length := by
  decide
